import Mathlib

/-!
Verification development for the serial-port `Connector` class
(`app/src/main/connector.ts`): connection lifecycle management for a single
point-to-point serial connection (open, master/slave handshake with a
firmware-flash escape hatch, steady-state read loop, keepalive/loss
detection, serialized send, teardown).

The embedding is shallow: the mutable fields of the TypeScript class become a
`Connector` record, each method becomes a pure state-transition function, and
the asynchronous callbacks of `initialize()` (data frames, the slave poll
interval, the firmware-flash deadline) become a small-step machine
(`initStep`) over an `InitState` that pairs the connector state with the
state of the returned promise and a log of observable effects.

Timer handles (`NodeJS.Timeout` fields) are modelled as `Bool` flags meaning
"an armed, not-yet-cleared timer exists".  Listener registrations on the
effective read stream (the parser when framing is configured, otherwise the
port itself - both the handshake and the steady-state handler attach to that
same object) are modelled as a list of `ListenerTag`s.
-/

/-- Byte payloads handed to `send`.  JavaScript truthiness of the `data`
argument is modelled as non-emptiness (`undefined`/empty string are falsy). -/
abbrev Payload := List Nat

/-- The three observationally distinct results of
`hwModule.checkInitialData(data, options)`: strict `undefined`, strict `true`,
and everything else (the code only tests `=== undefined` and `=== true`). -/
inductive CheckResult
  | undef
  | tru
  | other
  deriving DecidableEq

/-- Which handler a `data` listener on the read stream belongs to: the
handshake handler installed by `initialize()` or the steady-state handler
installed by `connect()`. -/
inductive ListenerTag
  | handshake
  | steady
  deriving DecidableEq

/-- Observable effects, in program order: `send` invocations, actual writes
(after the serialized-send gate), state events pushed to the router
(`stateEv`) and to the module's `eventController` hook (`eventCtl`), hook
invocations, and promise settlement. -/
inductive Emit
  | sendCall (p : Payload)
  | wrote (p : Payload)
  | stateEv (name : String)
  | eventCtl (name : String)
  | hookConnect
  | afterConnectHook
  | dtrToggle
  | lostDelegated
  | setSerial
  | resolvedEv
  | rejectedEv (msg : String)
  deriving DecidableEq

/-- Settlement state of the promise returned by `initialize()`; a JavaScript
promise settles at most once (later `resolve`/`reject` calls are no-ops). -/
inductive PromState
  | pending
  | resolvedOk
  | rejectedErr (msg : String)
  deriving DecidableEq

/-- The hardware-module configuration (`this.options`).  Optional numeric or
string fields are `Option`s (`none` = absent/`undefined`). -/
structure HardwareConfig where
  control : Option String := none
  duration : Option Nat := none
  firmwarecheck : Bool := false
  lostTimer : Option Nat := none
  advertise : Option Nat := none
  softwareReset : Bool := false
  delimiter : Option String := none
  byteDelimiter : Option (List Nat) := none
  baudRate : Option Nat := none
  parity : Option String := none
  dataBits : Option Nat := none
  stopBits : Option Nat := none
  flowControl : Option String := none
  stream : Option String := none

/-- The behavior module's optional capability set (`this.hwModule`).  Hooks
whose only observable role is presence/invocation are `Bool`s; hooks whose
return value the connector consumes carry that value.  `checkInitialData`
keeps both arguments of the source call site
(`checkInitialData(data, this.options)`); `requestInitialData` is modelled by
the payload it returns (its optional serial-port argument does not feed back
into connector state). -/
structure HwModule where
  checkInitialData : Option (Nat → HardwareConfig → CheckResult) := none
  requestInitialData : Option Payload := none
  resetProperty : Option Payload := none
  setSerialPort : Bool := false
  validateLocalData : Option (Nat → Bool) := none
  handleLocalData : Bool := false
  requestLocalData : Option Payload := none
  getProperty : Option Payload := none
  connect : Bool := false
  afterConnect : Bool := false
  lostController : Bool := false
  eventController : Bool := false

/-- The serial-port object as far as the connector observes it: open flag,
whether a delimiter parser is piped on top, and the log of written payloads. -/
structure SerialPort where
  isOpen : Bool := true
  hasParser : Bool := false
  written : List Payload := []
  deriving DecidableEq

/-- The mutable fields of the `Connector` class.  Timer-handle fields
(`flashFirmware`, `slaveTimer`, `connectionLostTimer`,
`requestLocalDataInterval`, `advertiseInterval`) are `true` exactly when an
armed, not-yet-cleared timer exists.  `streamListeners` lists the `data`
listeners attached to the effective read stream. -/
structure Connector where
  options : HardwareConfig
  hwModule : HwModule
  router : Bool := false
  serialPort : Option SerialPort := none
  connected : Bool := false
  received : Bool := false
  lostTimer : Nat := 1000
  isSending : Bool := false
  executeFlash : Bool := false
  flashFirmware : Bool := false
  slaveTimer : Bool := false
  connectionLostTimer : Bool := false
  requestLocalDataInterval : Bool := false
  advertiseInterval : Bool := false
  streamListeners : List ListenerTag := []

/-- `static get DEFAULT_CONNECT_LOST_MILLS() { return 1000; }` -/
def Connector.DEFAULT_CONNECT_LOST_MILLS : Nat := 1000

/-- `static get DEFAULT_SLAVE_DURATION() { return 1000; }` -/
def Connector.DEFAULT_SLAVE_DURATION : Nat := 1000

/-- JavaScript `x || d` on an optional number: `undefined` and `0` are falsy
and yield the default. -/
def jsOrNat (x : Option Nat) (d : Nat) : Nat :=
  match x with
  | some n => if n = 0 then d else n
  | none => d

/-- The merged serial-port constructor options built by
`_makeSerialPortOptions`: defaults (baud 9600, no parity, 8 data bits,
1 stop bit) layered under the caller-supplied values via `Object.assign`,
with `flowControl` translated to `rtscts`/`xon`/`xoff` before the merge. -/
structure SerialPortOptions where
  autoOpen : Bool
  baudRate : Nat
  parity : String
  dataBits : Nat
  stopBits : Nat
  rtscts : Bool := false
  xon : Bool := false
  xoff : Bool := false
  deriving DecidableEq

/-- `Connector._makeSerialPortOptions`.  `Object.assign(_options, supplied)`
lets every supplied field win over the default, which `Option.getD` models. -/
def Connector.makeSerialPortOptions (o : HardwareConfig) : SerialPortOptions :=
  { autoOpen := true
    baudRate := o.baudRate.getD 9600
    parity := o.parity.getD "none"
    dataBits := o.dataBits.getD 8
    stopBits := o.stopBits.getD 1
    rtscts := o.flowControl == some "hardware"
    xon := o.flowControl == some "software"
    xoff := o.flowControl == some "software" }

/-- The synchronous part of `Connector.open(port)`: stores
`lostTimer = options.lostTimer || DEFAULT_CONNECT_LOST_MILLS` and creates the
serial port (piping a delimiter parser when `delimiter` or `byteDelimiter`
is configured).  The port is not yet open at this point. -/
def Connector.openStart (c : Connector) : Connector :=
  { c with
    lostTimer := jsOrNat c.options.lostTimer Connector.DEFAULT_CONNECT_LOST_MILLS
    serialPort := some
      { isOpen := false
        hasParser := c.options.delimiter.isSome || c.options.byteDelimiter.isSome
        written := [] } }

/-- The gate of `Connector.send`: `this.serialPort && this.serialPort.isOpen
&& data && !this.isSending`. -/
def Connector.sendGate (c : Connector) (d : Payload) : Bool :=
  match c.serialPort with
  | some sp => sp.isOpen && !d.isEmpty && !c.isSending
  | none => false

/-- Append a write to the port's write log. -/
def pushWritten (o : Option SerialPort) (p : Payload) : Option SerialPort :=
  match o with
  | some sp => some { sp with written := sp.written ++ [p] }
  | none => none

/-- `Connector.send(data)` up to the completion of the `write` call: when the
gate passes, sets `isSending = true` and writes the payload; otherwise a
silent no-op.  The returned flag says whether a write was issued.  (The
`stream === 'string'` branch converts the payload to a `Buffer` first; the
conversion does not affect the gate, the flag, or which call wrote.) -/
def Connector.sendRun (c : Connector) (d : Payload) : Connector × Bool :=
  if Connector.sendGate c d then
    ({ c with isSending := true, serialPort := pushWritten c.serialPort d }, true)
  else
    (c, false)

/-- The drain callback scheduled at the end of `Connector.send`: it runs only
when `this.serialPort` is still set, and clears `isSending`. -/
def Connector.drainDone (c : Connector) : Connector :=
  match c.serialPort with
  | some _ => { c with isSending := false }
  | none => c

/-- The write log of the current port (empty when no port is set). -/
def Connector.writtenLog (c : Connector) : List Payload :=
  match c.serialPort with
  | some sp => sp.written
  | none => []

/-- `Connector.clear()`: drops `connected`; cancels and resets the
loss-detection interval, the steady-state poll interval, the advertise
interval and the firmware-flash deadline; removes all listeners from the
port and its parser when a port is set.  (Note: the source never touches
`slaveTimer` here.) -/
def Connector.clear (c : Connector) : Connector :=
  { c with
    connected := false
    connectionLostTimer := false
    requestLocalDataInterval := false
    advertiseInterval := false
    streamListeners := if c.serialPort.isSome then [] else c.streamListeners
    flashFirmware := false }

/-- `Connector._sendState(state)`: invokes the module's `eventController`
hook when present, then `router.sendState`. -/
def sendStateEmits (hw : HwModule) (st : String) : List Emit :=
  (if hw.eventController then [Emit.eventCtl st] else []) ++ [Emit.stateEv st]

/-- One tick of the built-in loss-detection interval armed by `connect()`
when the module has no `lostController`:
if `connected` and `received` is false, drop `connected` and emit `lost`;
in either `connected` case reset `received` for the next window; do nothing
otherwise. -/
def Connector.lostTick (c : Connector) : Connector × List Emit :=
  if c.connected then
    if c.received = false then
      ({ c with connected := false, received := false }, sendStateEmits c.hwModule "lost")
    else
      ({ c with received := false }, [])
  else
    (c, [])

/-- `n` consecutive ticks of the loss-detection interval, concatenating the
emitted events. -/
def Connector.lostTicks (c : Connector) : Nat → Connector × List Emit
  | 0 => (c, [])
  | n + 1 =>
    let r1 := Connector.lostTick c
    let r2 := Connector.lostTicks r1.1 n
    (r2.1, r1.2 ++ r2.2)

/-- `Connector.connect()`.  Throwing before any mutation is modelled by
returning the input state unchanged together with the error message.  On
success: resets `connected`, grants a grace window (`received = true`),
invokes the `connect` hook and `_sendState('connect')`, toggles DTR when
`softwareReset` is set, invokes `afterConnect`, attaches the steady-state
`data` listener to the read stream, then either delegates loss handling to
`lostController` or arms the loss interval, arms the steady-state poll
interval (non-master with truthy `duration`) and the advertise interval. -/
def Connector.connectRun (c : Connector) : Connector × Option String × List Emit :=
  if c.router = false then
    (c, some "router must be set", [])
  else
    match c.serialPort with
    | none => (c, some "serialPort must be open", [])
    | some _ =>
      let emits :=
        (if c.hwModule.connect then [Emit.hookConnect] else []) ++
        sendStateEmits c.hwModule "connect" ++
        (if c.options.softwareReset then [Emit.dtrToggle] else []) ++
        (if c.hwModule.afterConnect then [Emit.afterConnectHook] else []) ++
        (if c.hwModule.lostController then [Emit.lostDelegated] else [])
      let durationV := c.options.duration.getD Connector.DEFAULT_SLAVE_DURATION
      let c1 := { c with
        connected := false
        received := true
        streamListeners := c.streamListeners ++ [ListenerTag.steady]
        connectionLostTimer :=
          if c.hwModule.lostController then c.connectionLostTimer else true
        requestLocalDataInterval :=
          if durationV ≠ 0 ∧ c.options.control ≠ some "master" then true
          else c.requestLocalDataInterval
        advertiseInterval :=
          match c.options.advertise with
          | some a => if a ≠ 0 then true else c.advertiseInterval
          | none => c.advertiseInterval }
      (c1, none, emits)

/-! ## The `initialize()` small-step machine

`initialize()` returns a promise and installs up to three asynchronous
callbacks: the handshake `data` handler (master or slave variant), the slave
poll interval (`slaveTimer`), and the firmware-flash deadline
(`flashFirmware`).  `InitState` pairs the connector with the promise state
and an effect log; `initStep` runs one callback firing.  Per the
single-threaded event-loop model, each `send` issued inside a callback is
treated as write-plus-drain completed before the next event fires
(`sendNowA`). -/

/-- Connector state together with the state of the `initialize()` promise
and the log of observable effects so far. -/
structure InitState where
  conn : Connector
  promise : PromState := PromState.pending
  log : List Emit := []

/-- A `resolve()` call: settles the promise (and logs the settlement) only
when it is still pending. -/
def resolveP (s : InitState) : InitState :=
  match s.promise with
  | PromState.pending =>
    { s with promise := PromState.resolvedOk, log := s.log ++ [Emit.resolvedEv] }
  | _ => s

/-- A `reject(new Error(msg))` call: settles the promise only when pending. -/
def rejectP (msg : String) (s : InitState) : InitState :=
  match s.promise with
  | PromState.pending =>
    { s with promise := PromState.rejectedErr msg, log := s.log ++ [Emit.rejectedEv msg] }
  | _ => s

/-- A `this.send(p)` call inside an `initialize()` callback, with the
write-drain pair completing atomically before the next event: logs the call,
and when the gate passes logs the write and appends it to the port's write
log (the net `isSending` round-trip `false → true → false` cancels out). -/
def sendNowA (s : InitState) (p : Payload) : InitState :=
  { conn := { s.conn with
      serialPort :=
        if Connector.sendGate s.conn p then pushWritten s.conn.serialPort p
        else s.conn.serialPort }
    promise := s.promise
    log := s.log ++ [Emit.sendCall p] ++
      (if Connector.sendGate s.conn p then [Emit.wrote p] else []) }

/-- The events that can fire while `initialize()`'s callbacks are installed:
an inbound frame, a slave poll tick, the firmware-flash deadline. -/
inductive HsEvent
  | frame (d : Nat)
  | slaveTick
  | deadline
  deriving DecidableEq

/-- The master handshake `data` handler (`runAsMaster`): `undefined` keeps
waiting and sends `requestInitialData()`; any defined result removes the
`data` listeners and clears the firmware deadline, then `true` optionally
hands the port to the module and resolves, anything else rejects with
`Invalid hardware`. -/
def masterDataStep (s : InitState) (d : Nat) : InitState :=
  match s.conn.hwModule.checkInitialData with
  | none => s
  | some f =>
    match f d s.conn.options with
    | CheckResult.undef =>
      match s.conn.hwModule.requestInitialData with
      | some p => sendNowA s p
      | none => s
    | CheckResult.tru =>
      resolveP
        { conn := { s.conn with streamListeners := [], flashFirmware := false }
          promise := s.promise
          log := s.log ++
            (if s.conn.hwModule.setSerialPort then [Emit.setSerial] else []) }
    | CheckResult.other =>
      rejectP "Invalid hardware"
        { s with conn := { s.conn with streamListeners := [], flashFirmware := false } }

/-- The slave handshake `data` handler (`runAsSlave`): `undefined` is
ignored (the poll interval does the prompting); any defined result removes
the `data` listeners and clears both the firmware deadline and the poll
interval, then `true` optionally hands the port over, sends
`resetProperty()` when present and resolves, anything else rejects. -/
def slaveDataStep (s : InitState) (d : Nat) : InitState :=
  match s.conn.hwModule.checkInitialData with
  | none => s
  | some f =>
    match f d s.conn.options with
    | CheckResult.undef => s
    | CheckResult.tru =>
      let s2 : InitState :=
        { conn := { s.conn with
            streamListeners := [], flashFirmware := false, slaveTimer := false }
          promise := s.promise
          log := s.log ++
            (if s.conn.hwModule.setSerialPort then [Emit.setSerial] else []) }
      resolveP
        (match s.conn.hwModule.resetProperty with
         | some p => sendNowA s2 p
         | none => s2)
    | CheckResult.other =>
      rejectP "Invalid hardware"
        { s with conn := { s.conn with
            streamListeners := [], flashFirmware := false, slaveTimer := false } }

/-- One slave poll tick: when the interval is armed, sends
`requestInitialData()`.  (The interval is only ever armed with the hook
present.) -/
def tickStep (s : InitState) : InitState :=
  if s.conn.slaveTimer then
    match s.conn.hwModule.requestInitialData with
    | some p => sendNowA s p
    | none => s
  else s

/-- The firmware-flash deadline firing: when the deadline is still pending,
and the port is set, removes the `data` listeners from the read stream and
marks `executeFlash`; in any case resolves the promise.  It does not touch
the slave poll interval. -/
def deadlineStep (s : InitState) : InitState :=
  if s.conn.flashFirmware then
    match s.conn.serialPort with
    | some _ =>
      resolveP { s with conn := { s.conn with
        flashFirmware := false, streamListeners := [], executeFlash := true } }
    | none =>
      resolveP { s with conn := { s.conn with flashFirmware := false } }
  else s

/-- One event of the `initialize()` machine.  A frame is dispatched to the
handshake handler only while that handler is attached; the role recorded in
the immutable options decides which variant was installed. -/
def initStep (s : InitState) : HsEvent → InitState
  | HsEvent.frame d =>
    if ListenerTag.handshake ∈ s.conn.streamListeners then
      if s.conn.options.control = some "master" then masterDataStep s d
      else slaveDataStep s d
    else s
  | HsEvent.slaveTick => tickStep s
  | HsEvent.deadline => deadlineStep s

/-- Run a sequence of events. -/
def runInit (s : InitState) (evs : List HsEvent) : InitState :=
  evs.foldl initStep s

/-- The synchronous body of `Connector.initialize()`: arms the firmware
deadline when `firmwarecheck` is set; when both `checkInitialData` and
`requestInitialData` exist, installs the master or slave handshake handler
(the slave variant also arms the poll interval); otherwise resolves at
once. -/
def Connector.initStart (c : Connector) : InitState :=
  let c1 := if c.options.firmwarecheck then { c with flashFirmware := true } else c
  if c1.hwModule.checkInitialData.isSome && c1.hwModule.requestInitialData.isSome then
    if c1.options.control = some "master" then
      { conn := { c1 with streamListeners := c1.streamListeners ++ [ListenerTag.handshake] }
        promise := PromState.pending
        log := [] }
    else
      { conn := { c1 with
          streamListeners := c1.streamListeners ++ [ListenerTag.handshake]
          slaveTimer := true }
        promise := PromState.pending
        log := [] }
  else
    resolveP { conn := c1, promise := PromState.pending, log := [] }

/-! ## Concrete sample states used for counterexamples and witnesses -/

/-- A freshly opened port. -/
def spOpen : SerialPort := { isOpen := true, hasParser := false, written := [] }

/-- A port reference that exists but is not (or no longer) open. -/
def spClosed : SerialPort := { isOpen := false, hasParser := false, written := [] }

/-- A connector with every timer armed, mid-slave-handshake. -/
def exC1 : Connector :=
  { options := {}
    hwModule := {}
    serialPort := some spOpen
    flashFirmware := true
    slaveTimer := true
    connectionLostTimer := true
    requestLocalDataInterval := true
    advertiseInterval := true }

/-- Slave role with firmware check on and a peer that never answers
(`checkInitialData` always `undefined`); the poll payload is `[1]`. -/
def exC2 : Connector :=
  { options := { control := some "slave", firmwarecheck := true }
    hwModule :=
      { checkInitialData := some (fun _ _ => CheckResult.undef)
        requestInitialData := some [1] }
    router := true
    serialPort := some spOpen }

/-- Slave role whose peer accepts the first frame. -/
def exC2w : Connector :=
  { options := { control := some "slave" }
    hwModule :=
      { checkInitialData := some (fun _ _ => CheckResult.tru)
        requestInitialData := some [1] }
    router := true
    serialPort := some spOpen }

/-- An idle connector with an open port, for exercising `send`. -/
def exC3 : Connector := { options := {}, hwModule := {}, serialPort := some spOpen }

/-- Master role whose peer accepts the first frame; the module wants the
port handed over on success. -/
def exC4 : Connector :=
  { options := { control := some "master" }
    hwModule :=
      { checkInitialData := some (fun _ _ => CheckResult.tru)
        requestInitialData := some [7]
        setSerialPort := true }
    router := true
    serialPort := some spOpen }

/-- A connected connector that received nothing in the current window. -/
def exC5 : Connector :=
  { options := {}
    hwModule := {}
    router := true
    serialPort := some spOpen
    connected := true
    received := false }

/-- Router registered but the port, while present, is not open. -/
def exC6 : Connector :=
  { options := {}, hwModule := {}, router := true, serialPort := some spClosed }

/-- Neither router nor port present. -/
def exC6w : Connector := { options := {}, hwModule := {} }

/-- Mid-handshake state with the firmware deadline armed and the promise
still pending. -/
def exC7 : InitState :=
  { conn :=
      { options := { firmwarecheck := true }
        hwModule := {}
        serialPort := some spOpen
        flashFirmware := true } }

/-- A module with no handshake hooks at all, ready to connect. -/
def exC8 : Connector :=
  { options := {}, hwModule := {}, router := true, serialPort := some spOpen }

/-- A module with `checkInitialData` but no `requestInitialData`. -/
def exC9 : Connector :=
  { options := {}
    hwModule := { checkInitialData := some (fun _ _ => CheckResult.tru) }
    serialPort := some spOpen }

/-- An explicitly supplied zero loss window next to an explicit baud rate. -/
def exC10 : Connector :=
  { options := { lostTimer := some 0, baudRate := some 19200 }, hwModule := {} }

/-! ## Basic lemmas about the machine's building blocks -/

theorem resolveP_conn (s : InitState) : (resolveP s).conn = s.conn := by
  unfold resolveP
  cases hp : s.promise <;> rfl

theorem rejectP_conn (msg : String) (s : InitState) : (rejectP msg s).conn = s.conn := by
  unfold rejectP
  cases hp : s.promise <;> rfl

theorem resolveP_pending (s : InitState) (h : s.promise = PromState.pending) :
    (resolveP s).promise = PromState.resolvedOk := by
  unfold resolveP
  rw [h]

theorem rejectP_pending (msg : String) (s : InitState) (h : s.promise = PromState.pending) :
    (rejectP msg s).promise = PromState.rejectedErr msg := by
  unfold rejectP
  rw [h]

theorem pushWritten_isSome (o : Option SerialPort) (p : Payload) :
    (pushWritten o p).isSome = o.isSome := by
  cases o <;> rfl

theorem sendNowA_promise (s : InitState) (p : Payload) :
    (sendNowA s p).promise = s.promise := rfl

theorem sendNowA_listeners (s : InitState) (p : Payload) :
    (sendNowA s p).conn.streamListeners = s.conn.streamListeners := rfl

theorem sendNowA_slaveTimer (s : InitState) (p : Payload) :
    (sendNowA s p).conn.slaveTimer = s.conn.slaveTimer := rfl

theorem sendNowA_flashFirmware (s : InitState) (p : Payload) :
    (sendNowA s p).conn.flashFirmware = s.conn.flashFirmware := rfl

theorem sendNowA_router (s : InitState) (p : Payload) :
    (sendNowA s p).conn.router = s.conn.router := rfl

theorem sendNowA_options (s : InitState) (p : Payload) :
    (sendNowA s p).conn.options = s.conn.options := rfl

theorem sendNowA_hwModule (s : InitState) (p : Payload) :
    (sendNowA s p).conn.hwModule = s.conn.hwModule := rfl

theorem sendNowA_serial_isSome (s : InitState) (p : Payload) :
    (sendNowA s p).conn.serialPort.isSome = s.conn.serialPort.isSome := by
  unfold sendNowA
  by_cases h : Connector.sendGate s.conn p = true <;>
    simp [h, pushWritten_isSome]

/-- Machine-level sends agree with the source's `send` followed by the drain
callback: `sendNowA`'s connector state is exactly `drainDone ∘ sendRun` when
the gate passes (the gate implies `isSending` was `false` and the port is
set, so the `isSending` round-trip cancels), and `sendRun` alone otherwise. -/
theorem sendNowA_conn_drain (s : InitState) (p : Payload) :
    (sendNowA s p).conn =
      (if Connector.sendGate s.conn p then Connector.drainDone (Connector.sendRun s.conn p).1
       else (Connector.sendRun s.conn p).1) := by
  by_cases h : Connector.sendGate s.conn p = true
  · have hns : s.conn.isSending = false := by
      unfold Connector.sendGate at h
      cases hsp : s.conn.serialPort with
      | none => rw [hsp] at h; cases h
      | some sp =>
        rw [hsp] at h
        simp only [Bool.and_eq_true, Bool.not_eq_true'] at h
        exact h.2
    have hsp2 : ∃ sp, s.conn.serialPort = some sp := by
      unfold Connector.sendGate at h
      cases hsp : s.conn.serialPort with
      | none => rw [hsp] at h; cases h
      | some sp => exact ⟨sp, rfl⟩
    obtain ⟨sp, hsp⟩ := hsp2
    simp only [sendNowA, Connector.sendRun, Connector.drainDone, h, if_pos, hsp,
      pushWritten]
    cases hc : s.conn
    simp_all
  · simp only [sendNowA, Connector.sendRun, h]
    simp [Bool.not_eq_true] at h
    simp [h]

/-! ## Quiescence: once the handshake listener, the poll interval and the
firmware deadline are all gone, no event has any effect. -/

/-- No handshake `data` listener, no armed slave poll interval, no pending
firmware deadline. -/
def quiescent (s : InitState) : Prop :=
  ListenerTag.handshake ∉ s.conn.streamListeners ∧
  s.conn.slaveTimer = false ∧ s.conn.flashFirmware = false

theorem initStep_quiescent (s : InitState) (e : HsEvent) (h : quiescent s) :
    initStep s e = s := by
  obtain ⟨h1, h2, h3⟩ := h
  cases e with
  | frame d => simp [initStep, h1]
  | slaveTick => simp [initStep, tickStep, h2]
  | deadline => simp [initStep, deadlineStep, h3]

theorem runInit_quiescent (s : InitState) (evs : List HsEvent) (h : quiescent s) :
    runInit s evs = s := by
  induction evs with
  | nil => rfl
  | cons e evs ih =>
    show runInit (initStep s e) evs = s
    rw [initStep_quiescent s e h]
    exact ih

/-! ## The handshake invariant

Throughout `initialize()` the port reference stays set, and whenever the
promise has settled the handshake `data` listeners have already been
removed (every settling branch removes them first). -/

/-- The machine's invariant: the port stays set; a settled promise means the
read stream carries no `data` listener any more. -/
def InitInv (s : InitState) : Prop :=
  s.conn.serialPort.isSome = true ∧
  (s.promise ≠ PromState.pending → s.conn.streamListeners = [])

theorem masterDataStep_inv (s : InitState) (d : Nat) (h : InitInv s) :
    InitInv (masterDataStep s d) := by
  obtain ⟨hsp, hres⟩ := h
  cases hc : s.conn.hwModule.checkInitialData with
  | none => simp only [masterDataStep, hc]; exact ⟨hsp, hres⟩
  | some f =>
    cases hr : f d s.conn.options with
    | undef =>
      cases hq : s.conn.hwModule.requestInitialData with
      | none => simp only [masterDataStep, hc, hr, hq]; exact ⟨hsp, hres⟩
      | some p =>
        simp only [masterDataStep, hc, hr, hq]
        refine ⟨?_, ?_⟩
        · rw [sendNowA_serial_isSome]; exact hsp
        · rw [sendNowA_promise, sendNowA_listeners]; exact hres
    | tru =>
      simp only [masterDataStep, hc, hr]
      refine ⟨?_, ?_⟩
      · rw [resolveP_conn]; exact hsp
      · intro _; rw [resolveP_conn]
    | other =>
      simp only [masterDataStep, hc, hr]
      refine ⟨?_, ?_⟩
      · rw [rejectP_conn]; exact hsp
      · intro _; rw [rejectP_conn]

theorem slaveDataStep_inv (s : InitState) (d : Nat) (h : InitInv s) :
    InitInv (slaveDataStep s d) := by
  obtain ⟨hsp, hres⟩ := h
  cases hc : s.conn.hwModule.checkInitialData with
  | none => simp only [slaveDataStep, hc]; exact ⟨hsp, hres⟩
  | some f =>
    cases hr : f d s.conn.options with
    | undef => simp only [slaveDataStep, hc, hr]; exact ⟨hsp, hres⟩
    | tru =>
      cases hq : s.conn.hwModule.resetProperty with
      | none =>
        simp only [slaveDataStep, hc, hr, hq]
        refine ⟨?_, ?_⟩
        · rw [resolveP_conn]; exact hsp
        · intro _; rw [resolveP_conn]
      | some p =>
        simp only [slaveDataStep, hc, hr, hq]
        refine ⟨?_, ?_⟩
        · rw [resolveP_conn, sendNowA_serial_isSome]; exact hsp
        · intro _; rw [resolveP_conn, sendNowA_listeners]
    | other =>
      simp only [slaveDataStep, hc, hr]
      refine ⟨?_, ?_⟩
      · rw [rejectP_conn]; exact hsp
      · intro _; rw [rejectP_conn]

theorem tickStep_inv (s : InitState) (h : InitInv s) : InitInv (tickStep s) := by
  obtain ⟨hsp, hres⟩ := h
  by_cases ht : s.conn.slaveTimer = true
  · cases hq : s.conn.hwModule.requestInitialData with
    | none => simp only [tickStep, ht, if_true, hq]; exact ⟨hsp, hres⟩
    | some p =>
      simp only [tickStep, ht, if_true, hq]
      refine ⟨?_, ?_⟩
      · rw [sendNowA_serial_isSome]; exact hsp
      · rw [sendNowA_promise, sendNowA_listeners]; exact hres
  · simp only [tickStep, ht, if_false]
    exact ⟨hsp, hres⟩

theorem deadlineStep_inv (s : InitState) (h : InitInv s) : InitInv (deadlineStep s) := by
  obtain ⟨hsp, hres⟩ := h
  by_cases hff : s.conn.flashFirmware = true
  · obtain ⟨sp, hspv⟩ := Option.isSome_iff_exists.mp hsp
    simp only [deadlineStep, hff, if_true, hspv]
    refine ⟨?_, ?_⟩
    · rw [resolveP_conn]; rfl
    · intro _; rw [resolveP_conn]
  · simp only [deadlineStep, hff, if_false]
    exact ⟨hsp, hres⟩

theorem initStep_inv (s : InitState) (e : HsEvent) (h : InitInv s) :
    InitInv (initStep s e) := by
  cases e with
  | frame d =>
    show InitInv (if ListenerTag.handshake ∈ s.conn.streamListeners then _ else s)
    by_cases hm : ListenerTag.handshake ∈ s.conn.streamListeners
    · rw [if_pos hm]
      by_cases hctl : s.conn.options.control = some "master"
      · rw [if_pos hctl]; exact masterDataStep_inv s d h
      · rw [if_neg hctl]; exact slaveDataStep_inv s d h
    · rw [if_neg hm]; exact h
  | slaveTick => exact tickStep_inv s h
  | deadline => exact deadlineStep_inv s h

theorem runInit_inv (s : InitState) (evs : List HsEvent) (h : InitInv s) :
    InitInv (runInit s evs) := by
  induction evs generalizing s with
  | nil => exact h
  | cons e evs ih =>
    show InitInv (runInit (initStep s e) evs)
    exact ih _ (initStep_inv s e h)

theorem masterDataStep_router (s : InitState) (d : Nat) :
    (masterDataStep s d).conn.router = s.conn.router := by
  cases hc : s.conn.hwModule.checkInitialData with
  | none => simp only [masterDataStep, hc]
  | some f =>
    cases hr : f d s.conn.options with
    | undef =>
      cases hq : s.conn.hwModule.requestInitialData with
      | none => simp only [masterDataStep, hc, hr, hq]
      | some p => simp only [masterDataStep, hc, hr, hq, sendNowA_router]
    | tru => simp only [masterDataStep, hc, hr]; rw [resolveP_conn]
    | other => simp only [masterDataStep, hc, hr]; rw [rejectP_conn]

theorem slaveDataStep_router (s : InitState) (d : Nat) :
    (slaveDataStep s d).conn.router = s.conn.router := by
  cases hc : s.conn.hwModule.checkInitialData with
  | none => simp only [slaveDataStep, hc]
  | some f =>
    cases hr : f d s.conn.options with
    | undef => simp only [slaveDataStep, hc, hr]
    | tru =>
      cases hq : s.conn.hwModule.resetProperty with
      | none => simp only [slaveDataStep, hc, hr, hq]; rw [resolveP_conn]
      | some p =>
        simp only [slaveDataStep, hc, hr, hq]
        rw [resolveP_conn, sendNowA_router]
    | other => simp only [slaveDataStep, hc, hr]; rw [rejectP_conn]

theorem tickStep_router (s : InitState) : (tickStep s).conn.router = s.conn.router := by
  by_cases ht : s.conn.slaveTimer = true
  · cases hq : s.conn.hwModule.requestInitialData with
    | none => simp only [tickStep, ht, if_true, hq]
    | some p => simp only [tickStep, ht, if_true, hq, sendNowA_router]
  · simp [tickStep, ht]

theorem deadlineStep_router (s : InitState) :
    (deadlineStep s).conn.router = s.conn.router := by
  by_cases hff : s.conn.flashFirmware = true
  · cases hsp : s.conn.serialPort with
    | none => simp only [deadlineStep, hff, if_true, hsp]; rw [resolveP_conn]
    | some sp => simp only [deadlineStep, hff, if_true, hsp]; rw [resolveP_conn]
  · simp [deadlineStep, hff]

theorem initStep_router (s : InitState) (e : HsEvent) :
    (initStep s e).conn.router = s.conn.router := by
  cases e with
  | frame d =>
    show (if ListenerTag.handshake ∈ s.conn.streamListeners then _ else s).conn.router = _
    by_cases hm : ListenerTag.handshake ∈ s.conn.streamListeners
    · rw [if_pos hm]
      by_cases hctl : s.conn.options.control = some "master"
      · rw [if_pos hctl]; exact masterDataStep_router s d
      · rw [if_neg hctl]; exact slaveDataStep_router s d
    · rw [if_neg hm]
  | slaveTick => exact tickStep_router s
  | deadline => exact deadlineStep_router s

theorem runInit_router (s : InitState) (evs : List HsEvent) :
    (runInit s evs).conn.router = s.conn.router := by
  induction evs generalizing s with
  | nil => rfl
  | cons e evs ih =>
    show (runInit (initStep s e) evs).conn.router = _
    rw [ih, initStep_router]

/-- The synchronous `initialize()` body keeps the router registration. -/
theorem initStart_router (c : Connector) :
    (Connector.initStart c).conn.router = c.router := by
  unfold Connector.initStart
  by_cases hf : c.options.firmwarecheck = true <;>
  by_cases hb :
      (c.hwModule.checkInitialData.isSome && c.hwModule.requestInitialData.isSome) = true <;>
  by_cases hctl : c.options.control = some "master" <;>
  simp [hf, hb, hctl, resolveP]

/-- The synchronous `initialize()` body establishes the machine invariant
whenever it is called with a port set and no stale listeners. -/
theorem initStart_inv (c : Connector) (hsp : c.serialPort.isSome = true)
    (hls : c.streamListeners = []) : InitInv (Connector.initStart c) := by
  unfold Connector.initStart
  by_cases hf : c.options.firmwarecheck = true <;>
  by_cases hb :
      (c.hwModule.checkInitialData.isSome && c.hwModule.requestInitialData.isSome) = true <;>
  by_cases hctl : c.options.control = some "master" <;>
  simp [hf, hb, hctl, resolveP, InitInv, hsp, hls]

/-- The firmware-deadline handler never touches the slave poll interval. -/
theorem deadlineStep_slaveTimer (s : InitState) :
    (deadlineStep s).conn.slaveTimer = s.conn.slaveTimer := by
  by_cases hff : s.conn.flashFirmware = true
  · cases hsp : s.conn.serialPort with
    | none => simp only [deadlineStep, hff, if_true, hsp]; rw [resolveP_conn]
    | some sp => simp only [deadlineStep, hff, if_true, hsp]; rw [resolveP_conn]
  · simp [deadlineStep, hff]

/-- When the slave handshake handler sees a deciding frame (result not
`undefined`), it removes the `data` listeners and clears both the firmware
deadline and the poll interval before settling. -/
theorem slaveDataStep_decided (s : InitState) (d : Nat)
    (f : Nat → HardwareConfig → CheckResult)
    (hf : s.conn.hwModule.checkInitialData = some f)
    (hr : f d s.conn.options ≠ CheckResult.undef) :
    (slaveDataStep s d).conn.slaveTimer = false ∧
    (slaveDataStep s d).conn.streamListeners = [] ∧
    (slaveDataStep s d).conn.flashFirmware = false := by
  cases hrr : f d s.conn.options with
  | undef => exact absurd hrr hr
  | tru =>
    cases hq : s.conn.hwModule.resetProperty with
    | none =>
      simp only [slaveDataStep, hf, hrr, hq]
      refine ⟨?_, ?_, ?_⟩ <;> rw [resolveP_conn]
    | some p =>
      simp only [slaveDataStep, hf, hrr, hq]
      refine ⟨?_, ?_, ?_⟩ <;>
        rw [resolveP_conn] <;>
        first
          | rw [sendNowA_slaveTimer]
          | rw [sendNowA_listeners]
          | rw [sendNowA_flashFirmware]
  | other =>
    simp only [slaveDataStep, hf, hrr]
    refine ⟨?_, ?_, ?_⟩ <;> rw [rejectP_conn]

theorem lostTick_not_connected (c : Connector) (h : c.connected = false) :
    Connector.lostTick c = (c, []) := by
  simp [Connector.lostTick, h]

theorem lostTicks_not_connected (c : Connector) (h : c.connected = false) :
    ∀ n, Connector.lostTicks c n = (c, []) := by
  intro n
  induction n with
  | zero => rfl
  | succ n ih =>
    show Connector.lostTicks c (n + 1) = (c, [])
    unfold Connector.lostTicks
    rw [lostTick_not_connected c h]
    simp only []
    rw [ih]
    rfl

/-! ## Claim theorems -/

/-- Claim C1, counterexample.  The claim states that `clear()` cancels every
timer in the TimerSet, including the slave handshake-poll timer, resetting
each to absent.  On a connector whose slave poll interval is armed,
`clear()` leaves it armed: the `clear` body never touches `slaveTimer`. -/
theorem clear_slave_poll_cex :
    exC1.slaveTimer = true ∧ (Connector.clear exC1).slaveTimer = true :=
  ⟨rfl, rfl⟩

/-- Claim C1, amended.  For every connection state, `clear()` cancels and
resets to absent the loss-detection timer, the steady-state poll timer, the
advertise timer and the firmware-flash-deadline timer, and is idempotent
(a second `clear()` changes nothing); the slave handshake-poll timer is
left untouched. -/
theorem clear_resets_owned_timers (c : Connector) :
    (Connector.clear c).connectionLostTimer = false ∧
    (Connector.clear c).requestLocalDataInterval = false ∧
    (Connector.clear c).advertiseInterval = false ∧
    (Connector.clear c).flashFirmware = false ∧
    (Connector.clear c).slaveTimer = c.slaveTimer ∧
    Connector.clear (Connector.clear c) = Connector.clear c := by
  refine ⟨rfl, rfl, rfl, rfl, rfl, ?_⟩
  unfold Connector.clear
  cases hsp : c.serialPort <;> simp

/-- Claim C2, counterexample.  When the slave handshake is resolved by the
firmware-flash deadline rather than by an inbound frame, the poll interval
stays armed and its next tick still calls `send` with
`requestInitialData()` — and the write goes out — strictly after the
promise has resolved. -/
theorem slave_poll_after_deadline_cex :
    (runInit (Connector.initStart exC2) [HsEvent.deadline]).promise =
      PromState.resolvedOk ∧
    (runInit (Connector.initStart exC2) [HsEvent.deadline]).conn.slaveTimer = true ∧
    (runInit (Connector.initStart exC2) [HsEvent.deadline, HsEvent.slaveTick]).log =
      [Emit.resolvedEv, Emit.sendCall [1], Emit.wrote [1]] :=
  ⟨rfl, rfl, rfl⟩

/-- Claim C2, amended.  In a slave-role handshake, when the handshake is
resolved by an inbound frame the handler cancels the poll interval at the
moment of resolution and the machine is quiescent from then on — no
subsequent event (poll tick, frame, or deadline) has any effect, so no
`requestInitialData` send occurs after a frame-based resolution.  When
resolution happens via the firmware-flash deadline, however, the deadline
handler leaves the poll interval armed, and poll-tick sends continue (see
the counterexample). -/
theorem slave_poll_cancel_on_frame (s : InitState) (d : Nat)
    (f : Nat → HardwareConfig → CheckResult)
    (hf : s.conn.hwModule.checkInitialData = some f)
    (hm : ListenerTag.handshake ∈ s.conn.streamListeners)
    (hctl : ¬ s.conn.options.control = some "master")
    (hr : f d s.conn.options ≠ CheckResult.undef) :
    (initStep s (HsEvent.frame d)).conn.slaveTimer = false ∧
    (∀ evs, runInit (initStep s (HsEvent.frame d)) evs = initStep s (HsEvent.frame d)) ∧
    (∀ t : InitState, (initStep t HsEvent.deadline).conn.slaveTimer = t.conn.slaveTimer) := by
  have hstep : initStep s (HsEvent.frame d) = slaveDataStep s d := by
    show (if ListenerTag.handshake ∈ s.conn.streamListeners then _ else s) = _
    rw [if_pos hm, if_neg hctl]
  obtain ⟨h1, h2, h3⟩ := slaveDataStep_decided s d f hf hr
  rw [hstep]
  refine ⟨h1, ?_, ?_⟩
  · intro evs
    refine runInit_quiescent _ evs ⟨?_, h1, h3⟩
    rw [h2]
    exact List.not_mem_nil _
  · intro t
    exact deadlineStep_slaveTimer t

/-- Claim C2, amended, witness. -/
theorem slave_poll_cancel_on_frame_witness :
    (initStep (Connector.initStart exC2w) (HsEvent.frame 0)).conn.slaveTimer = false ∧
    runInit (initStep (Connector.initStart exC2w) (HsEvent.frame 0)) [HsEvent.slaveTick] =
      initStep (Connector.initStart exC2w) (HsEvent.frame 0) :=
  ⟨(slave_poll_cancel_on_frame _ 0 _ rfl (by decide) (by decide) (by decide)).1,
   (slave_poll_cancel_on_frame _ 0 _ rfl (by decide) (by decide) (by decide)).2.1
     [HsEvent.slaveTick]⟩

/-- Claim C3.  `send(payload)` is a silent no-op — same state, nothing
written, no error (the function is total) — unless the port exists and is
open, the payload is non-empty and no send is in flight.  When the gate
passes, `isSending` is set before the write and stays set until the drain
callback clears it, so a second send issued before the drain is dropped
(state unchanged, nothing written) while a third send after the drain
succeeds. -/
theorem send_serialized (c : Connector) (sp : SerialPort) (d1 d2 d3 : Payload)
    (hsp : c.serialPort = some sp) (hopen : sp.isOpen = true)
    (hd1 : d1.isEmpty = false) (hd3 : d3.isEmpty = false)
    (hns : c.isSending = false) :
    (∀ c0 : Connector, ∀ d0 : Payload, Connector.sendGate c0 d0 = false →
        Connector.sendRun c0 d0 = (c0, false)) ∧
    (Connector.sendRun c d1).1.isSending = true ∧
    Connector.writtenLog (Connector.sendRun c d1).1 = Connector.writtenLog c ++ [d1] ∧
    Connector.sendRun (Connector.sendRun c d1).1 d2 = ((Connector.sendRun c d1).1, false) ∧
    (Connector.drainDone (Connector.sendRun c d1).1).isSending = false ∧
    (Connector.sendRun (Connector.drainDone (Connector.sendRun c d1).1) d3).1.isSending
      = true ∧
    Connector.writtenLog
        (Connector.sendRun (Connector.drainDone (Connector.sendRun c d1).1) d3).1
      = Connector.writtenLog c ++ [d1] ++ [d3] := by
  have hg1 : Connector.sendGate c d1 = true := by
    simp [Connector.sendGate, hsp, hopen, hd1, hns]
  have hrun1 : Connector.sendRun c d1 =
      ({ c with
          isSending := true
          serialPort := some { sp with written := sp.written ++ [d1] } }, true) := by
    simp [Connector.sendRun, hg1, pushWritten, hsp]
  have hdd : Connector.drainDone
      { c with
        isSending := true
        serialPort := some { sp with written := sp.written ++ [d1] } } =
      { c with
        isSending := false
        serialPort := some { sp with written := sp.written ++ [d1] } } := by
    simp [Connector.drainDone]
  have hg3 : Connector.sendGate
      { c with
        isSending := false
        serialPort := some { sp with written := sp.written ++ [d1] } } d3 = true := by
    simp [Connector.sendGate, hopen, hd3]
  refine ⟨?_, ?_, ?_, ?_, ?_, ?_, ?_⟩
  · intro c0 d0 h0
    simp [Connector.sendRun, h0]
  · rw [hrun1]
  · rw [hrun1]
    simp [Connector.writtenLog, hsp]
  · rw [hrun1]
    have hg2 : Connector.sendGate
        { c with
          isSending := true
          serialPort := some { sp with written := sp.written ++ [d1] } } d2 = false := by
      simp [Connector.sendGate]
    simp [Connector.sendRun, hg2]
  · rw [hrun1]
    simp [Connector.drainDone]
  · rw [hrun1, hdd]
    simp [Connector.sendRun, hg3]
  · rw [hrun1, hdd]
    simp [Connector.sendRun, hg3, Connector.writtenLog, pushWritten, hsp]

/-- Claim C3, witness. -/
theorem send_serialized_witness :
    (Connector.sendRun exC3 [1]).1.isSending = true ∧
    Connector.sendRun (Connector.sendRun exC3 [1]).1 [2] =
      ((Connector.sendRun exC3 [1]).1, false) ∧
    (Connector.sendRun (Connector.drainDone (Connector.sendRun exC3 [1]).1) [3]).1.isSending
      = true :=
  ⟨(send_serialized exC3 spOpen [1] [2] [3] rfl rfl rfl rfl rfl).2.1,
   (send_serialized exC3 spOpen [1] [2] [3] rfl rfl rfl rfl rfl).2.2.2.1,
   (send_serialized exC3 spOpen [1] [2] [3] rfl rfl rfl rfl rfl).2.2.2.2.2.1⟩

/-- Claim C4.  In a master-role handshake with the promise still pending, each
inbound frame invokes `checkInitialData(frame, config)` and exactly one of
three outcomes follows: `undefined` sends one `requestInitialData()` call
and keeps waiting (promise still pending, listeners untouched); `true`
detaches the `data` listeners, cancels the firmware deadline, invokes
`setSerialPort` when present, and resolves the future; any other result
rejects the future with the `Invalid hardware` error (also detaching the
listeners). -/
theorem master_frame_trichotomy (s : InitState) (d : Nat)
    (f : Nat → HardwareConfig → CheckResult)
    (hf : s.conn.hwModule.checkInitialData = some f)
    (hctl : s.conn.options.control = some "master")
    (hm : ListenerTag.handshake ∈ s.conn.streamListeners)
    (hp : s.promise = PromState.pending) :
    (f d s.conn.options = CheckResult.undef →
      (∀ p, s.conn.hwModule.requestInitialData = some p →
        (initStep s (HsEvent.frame d)).log =
          s.log ++ [Emit.sendCall p] ++
            (if Connector.sendGate s.conn p then [Emit.wrote p] else [])) ∧
      (initStep s (HsEvent.frame d)).promise = PromState.pending ∧
      (initStep s (HsEvent.frame d)).conn.streamListeners = s.conn.streamListeners) ∧
    (f d s.conn.options = CheckResult.tru →
      (initStep s (HsEvent.frame d)).conn.streamListeners = [] ∧
      (initStep s (HsEvent.frame d)).conn.flashFirmware = false ∧
      (initStep s (HsEvent.frame d)).promise = PromState.resolvedOk ∧
      (s.conn.hwModule.setSerialPort = true →
        Emit.setSerial ∈ (initStep s (HsEvent.frame d)).log)) ∧
    (f d s.conn.options = CheckResult.other →
      (initStep s (HsEvent.frame d)).promise = PromState.rejectedErr "Invalid hardware" ∧
      (initStep s (HsEvent.frame d)).conn.streamListeners = []) := by
  have hstep : initStep s (HsEvent.frame d) = masterDataStep s d := by
    show (if ListenerTag.handshake ∈ s.conn.streamListeners then _ else s) = _
    rw [if_pos hm, if_pos hctl]
  rw [hstep]
  refine ⟨?_, ?_, ?_⟩
  · intro hres
    refine ⟨?_, ?_, ?_⟩
    · intro p hq
      simp only [masterDataStep, hf, hres, hq, sendNowA]
    · cases hq : s.conn.hwModule.requestInitialData with
      | none => simp only [masterDataStep, hf, hres, hq]; exact hp
      | some p =>
        simp only [masterDataStep, hf, hres, hq]
        rw [sendNowA_promise]; exact hp
    · cases hq : s.conn.hwModule.requestInitialData with
      | none => simp only [masterDataStep, hf, hres, hq]
      | some p =>
        simp only [masterDataStep, hf, hres, hq]
        rw [sendNowA_listeners]
  · intro hres
    refine ⟨?_, ?_, ?_, ?_⟩
    · simp only [masterDataStep, hf, hres]
      rw [resolveP_conn]
    · simp only [masterDataStep, hf, hres]
      rw [resolveP_conn]
    · simp only [masterDataStep, hf, hres]
      exact resolveP_pending _ hp
    · intro hss
      simp only [masterDataStep, hf, hres, hss, if_true, resolveP, hp]
      simp
  · intro hres
    refine ⟨?_, ?_⟩
    · simp only [masterDataStep, hf, hres]
      exact rejectP_pending _ _ hp
    · simp only [masterDataStep, hf, hres]
      rw [rejectP_conn]

/-- Claim C4, witness. -/
theorem master_frame_trichotomy_witness :
    (initStep (Connector.initStart exC4) (HsEvent.frame 0)).promise =
      PromState.resolvedOk ∧
    (initStep (Connector.initStart exC4) (HsEvent.frame 0)).conn.streamListeners = [] ∧
    Emit.setSerial ∈ (initStep (Connector.initStart exC4) (HsEvent.frame 0)).log :=
  ⟨((master_frame_trichotomy _ 0 _ rfl rfl (by decide) rfl).2.1 rfl).2.2.1,
   ((master_frame_trichotomy _ 0 _ rfl rfl (by decide) rfl).2.1 rfl).1,
   ((master_frame_trichotomy _ 0 _ rfl rfl (by decide) rfl).2.1 rfl).2.2.2 rfl⟩

/-- Claim C5.  The built-in loss monitor: a tick with state Connected and the
received flag false transitions to not-connected and emits the `lost` event
exactly once (`sendStateEmits`, one `stateEv "lost"`), and any number of
further ticks from the resulting state emit nothing (no second `lost`
without an intervening accepted frame); a tick with the flag true only
clears the flag; a tick while not connected does nothing.  And `connect()`
with `lostController` present delegates loss handling (emitting
`lostDelegated`) without arming the built-in interval, while without it the
interval is armed. -/
theorem loss_monitor_window (c : Connector) :
    (c.connected = true → c.received = false →
      Connector.lostTick c =
        ({ c with connected := false, received := false },
          sendStateEmits c.hwModule "lost") ∧
      (∀ n, Connector.lostTicks { c with connected := false, received := false } n =
        ({ c with connected := false, received := false }, []))) ∧
    (c.connected = true → c.received = true →
      Connector.lostTick c = ({ c with received := false }, [])) ∧
    (c.connected = false → Connector.lostTick c = (c, [])) ∧
    (c.router = true → c.serialPort.isSome = true →
      (c.hwModule.lostController = true →
        (Connector.connectRun c).1.connectionLostTimer = c.connectionLostTimer ∧
        Emit.lostDelegated ∈ (Connector.connectRun c).2.2) ∧
      (c.hwModule.lostController = false →
        (Connector.connectRun c).1.connectionLostTimer = true)) := by
  refine ⟨?_, ?_, ?_, ?_⟩
  · intro hc hr
    refine ⟨by simp [Connector.lostTick, hc, hr], ?_⟩
    intro n
    exact lostTicks_not_connected _ rfl n
  · intro hc hr
    simp [Connector.lostTick, hc, hr]
  · intro hc
    exact lostTick_not_connected c hc
  · intro hrt hsp
    obtain ⟨sp, hspv⟩ := Option.isSome_iff_exists.mp hsp
    refine ⟨?_, ?_⟩
    · intro hlc
      constructor
      · simp [Connector.connectRun, hrt, hspv, hlc]
      · simp [Connector.connectRun, hrt, hspv, hlc]
    · intro hlc
      simp [Connector.connectRun, hrt, hspv, hlc]

/-- Claim C5, witness. -/
theorem loss_monitor_window_witness :
    Connector.lostTick exC5 =
      ({ exC5 with connected := false, received := false }, [Emit.stateEv "lost"]) ∧
    (Connector.connectRun exC5).1.connectionLostTimer = true :=
  ⟨((loss_monitor_window exC5).1 rfl rfl).1,
   ((loss_monitor_window exC5).2.2.2 rfl rfl).2 rfl⟩

/-- Claim C6, counterexample.  The claim says `connect()` fails synchronously
when the transport is not open.  With a router registered and a port
reference that exists but is *closed*, `connect()` does not fail — it
proceeds and attaches the steady-state listener: the source only checks
`!this.serialPort` (presence), not openness. -/
theorem connect_closed_port_cex :
    exC6.serialPort = some spClosed ∧ spClosed.isOpen = false ∧
    (Connector.connectRun exC6).2.1 = none ∧
    (Connector.connectRun exC6).1.streamListeners = [ListenerTag.steady] :=
  ⟨rfl, rfl, rfl, rfl⟩

/-- Claim C6, amended.  `connect()` fails synchronously with a precondition
error when the message sink (router) is not registered or when no transport
reference exists, and in that failure case it performs no connection
attempt and leaves the state unchanged (the returned state is the input
state and nothing is emitted).  A transport that exists but is not open does
not trigger the failure. -/
theorem connect_precondition_guard (c : Connector) :
    (c.router = false →
      Connector.connectRun c = (c, some "router must be set", [])) ∧
    (c.router = true → c.serialPort = none →
      Connector.connectRun c = (c, some "serialPort must be open", [])) := by
  constructor
  · intro h
    simp [Connector.connectRun, h]
  · intro hr hsp
    simp [Connector.connectRun, hr, hsp]

/-- Claim C6, amended, witness. -/
theorem connect_precondition_guard_witness :
    Connector.connectRun exC6w = (exC6w, some "router must be set", []) ∧
    Connector.connectRun { exC6w with router := true } =
      ({ exC6w with router := true }, some "serialPort must be open", []) :=
  ⟨(connect_precondition_guard exC6w).1 rfl,
   (connect_precondition_guard { exC6w with router := true }).2 rfl rfl⟩

/-- Claim C7.  When the firmware-flash deadline is armed and fires while the
handshake promise is still pending (and the port is set, as it is
throughout `initialize()`), the deadline handler detaches all `data`
listeners from the read stream, sets the firmware-flash-requested flag
(`executeFlash`) to true, and resolves the `initialize()` future without
error. -/
theorem firmware_deadline_resolves (s : InitState)
    (hsp : s.conn.serialPort.isSome = true)
    (hff : s.conn.flashFirmware = true)
    (hp : s.promise = PromState.pending) :
    (initStep s HsEvent.deadline).conn.executeFlash = true ∧
    (initStep s HsEvent.deadline).conn.streamListeners = [] ∧
    (initStep s HsEvent.deadline).promise = PromState.resolvedOk := by
  obtain ⟨sp, hspv⟩ := Option.isSome_iff_exists.mp hsp
  refine ⟨?_, ?_, ?_⟩
  · show (deadlineStep s).conn.executeFlash = true
    simp only [deadlineStep, hff, if_true, hspv]
    rw [resolveP_conn]
  · show (deadlineStep s).conn.streamListeners = []
    simp only [deadlineStep, hff, if_true, hspv]
    rw [resolveP_conn]
  · show (deadlineStep s).promise = PromState.resolvedOk
    simp only [deadlineStep, hff, if_true, hspv]
    exact resolveP_pending _ hp

/-- Claim C7, witness. -/
theorem firmware_deadline_resolves_witness :
    (initStep exC7 HsEvent.deadline).conn.executeFlash = true ∧
    (initStep exC7 HsEvent.deadline).promise = PromState.resolvedOk :=
  ⟨(firmware_deadline_resolves exC7 rfl rfl rfl).1,
   (firmware_deadline_resolves exC7 rfl rfl rfl).2.2⟩

/-- Claim C8.  For every run of `initialize()` (any sequence of frames, poll
ticks and deadline firings) that ends with the handshake future resolved,
the handshake `data` listeners are already fully detached (the read stream
carries no listener), and the subsequent `connect()` succeeds and leaves
exactly one `data` listener — the steady-state handler — on the stream: no
inbound frame is ever delivered to more than one handler. -/
theorem handshake_detached_before_steady (c : Connector) (evs : List HsEvent)
    (hsp : c.serialPort.isSome = true) (hls : c.streamListeners = [])
    (hr : c.router = true)
    (hres : (runInit (Connector.initStart c) evs).promise = PromState.resolvedOk) :
    (runInit (Connector.initStart c) evs).conn.streamListeners = [] ∧
    (Connector.connectRun (runInit (Connector.initStart c) evs).conn).2.1 = none ∧
    (Connector.connectRun (runInit (Connector.initStart c) evs).conn).1.streamListeners =
      [ListenerTag.steady] := by
  have hinv := runInit_inv _ evs (initStart_inv c hsp hls)
  have hnil : (runInit (Connector.initStart c) evs).conn.streamListeners = [] := by
    refine hinv.2 ?_
    rw [hres]
    intro hcon
    cases hcon
  have hrr : (runInit (Connector.initStart c) evs).conn.router = true := by
    rw [runInit_router, initStart_router]
    exact hr
  obtain ⟨sp, hspv⟩ := Option.isSome_iff_exists.mp hinv.1
  refine ⟨hnil, ?_, ?_⟩
  · simp [Connector.connectRun, hrr, hspv]
  · simp [Connector.connectRun, hrr, hspv, hnil]

/-- Claim C8, witness. -/
theorem handshake_detached_before_steady_witness :
    (runInit (Connector.initStart exC8) []).conn.streamListeners = [] ∧
    (Connector.connectRun (runInit (Connector.initStart exC8) []).conn).1.streamListeners =
      [ListenerTag.steady] :=
  ⟨(handshake_detached_before_steady exC8 [] rfl rfl rfl rfl).1,
   (handshake_detached_before_steady exC8 [] rfl rfl rfl rfl).2.2⟩

/-- Claim C9.  `initialize()` resolves immediately and installs neither a
handshake `data` listener nor the slave poll timer whenever at least one of
`checkInitialData` and `requestInitialData` is absent — including when
exactly one of the two is present (the source guards the handshake on the
conjunction of both hooks). -/
theorem init_resolves_without_handshake (c : Connector)
    (h : c.hwModule.checkInitialData.isSome = false ∨
         c.hwModule.requestInitialData.isSome = false) :
    (Connector.initStart c).promise = PromState.resolvedOk ∧
    (Connector.initStart c).conn.streamListeners = c.streamListeners ∧
    (Connector.initStart c).conn.slaveTimer = c.slaveTimer := by
  have hb : (c.hwModule.checkInitialData.isSome &&
      c.hwModule.requestInitialData.isSome) = false := by
    rcases h with h | h <;> simp [h]
  unfold Connector.initStart
  by_cases hf : c.options.firmwarecheck = true <;>
    simp [hf, hb, resolveP]

/-- Claim C9, witness (only `checkInitialData` present). -/
theorem init_resolves_without_handshake_witness :
    (Connector.initStart exC9).promise = PromState.resolvedOk ∧
    (Connector.initStart exC9).conn.slaveTimer = false :=
  ⟨(init_resolves_without_handshake exC9 (Or.inr rfl)).1,
   (init_resolves_without_handshake exC9 (Or.inr rfl)).2.2⟩

/-- Claim C10.  In `open()`, a falsy configured loss window (`lostTimer`
explicitly `0`, or absent) is replaced by the default 1000 ms — an
explicitly supplied `0` does not win over the default — while a non-zero
value is kept; by contrast, in the serial-port option merge an explicitly
supplied value (e.g. `baudRate`) always wins over the default. -/
theorem open_lost_window_default (c : Connector) :
    ((c.options.lostTimer = some 0 ∨ c.options.lostTimer = none) →
      (Connector.openStart c).lostTimer = Connector.DEFAULT_CONNECT_LOST_MILLS) ∧
    (∀ n, c.options.lostTimer = some n → n ≠ 0 →
      (Connector.openStart c).lostTimer = n) ∧
    (∀ b, c.options.baudRate = some b →
      (Connector.makeSerialPortOptions c.options).baudRate = b) := by
  refine ⟨?_, ?_, ?_⟩
  · rintro (h | h) <;> simp [Connector.openStart, jsOrNat, h]
  · intro n h hn
    simp [Connector.openStart, jsOrNat, h, hn]
  · intro b h
    simp [Connector.makeSerialPortOptions, h]

/-- Claim C10, witness. -/
theorem open_lost_window_default_witness :
    (Connector.openStart exC10).lostTimer = 1000 ∧
    (Connector.makeSerialPortOptions exC10.options).baudRate = 19200 :=
  ⟨(open_lost_window_default exC10).1 (Or.inl rfl),
   (open_lost_window_default exC10).2.2 19200 rfl⟩
